import Mathlib

/-!
Verification of the telehealth compliance checker
(`telehealth_compliance_checker.py`): a shallow embedding of its crawler,
compliance rule engine and score calculator, together with theorems about the
claims of the specification.

Texts are modelled as lists of characters (Python `str`).  The Python `re`
module is an external library; it is kept abstract as a `RegexEngine`
parameter providing `finditer` (the spans of the matches of a pattern in a
text) and `search` (whether a pattern matches somewhere in a text), both with
`re.IGNORECASE` baked in.  Everything else is translated directly from the
source.
-/

set_option maxHeartbeats 1000000
set_option maxRecDepth 100000

/-- Texts are lists of characters, mirroring Python strings. -/
abbrev Str := List Char

/-- Python `str.lower()`. -/
def lowerStr (s : Str) : Str := s.map Char.toLower

/-- Python `str.strip()`: remove whitespace from both ends. -/
def stripStr (s : Str) : Str :=
  ((s.dropWhile Char.isWhitespace).reverse.dropWhile Char.isWhitespace).reverse

/-- Span of a regex match inside a text: `match.start()` and `match.end()`. -/
structure MatchSpan where
  start : Nat
  stop : Nat
deriving DecidableEq, Repr

/-- The Python subscript `text[s:e]` (for `s ≤ e`; empty otherwise, as in Python
when both indices are already clamped to the text). -/
def pySlice (text : Str) (s e : Nat) : Str := (text.drop s).take (e - s)

/-- Python `match.group(0)`: the text of the match. -/
def matchedText (text : Str) (m : MatchSpan) : Str := pySlice text m.start m.stop

/-- The surrounding context of `w` characters before and after a match:
`text[max(0, match.start() - w) : min(len(text), match.end() + w)]`.
Truncated subtraction on `Nat` is exactly `max(0, _ - w)`. -/
def contextWindow (text : Str) (m : MatchSpan) (w : Nat) : Str :=
  pySlice text (m.start - w) (min text.length (m.stop + w))

/-- Abstract interface to the regular-expression engine (Python `re`, with
`re.IGNORECASE`): `finditer` returns the spans of the non-overlapping matches
of a pattern in a text, `search` tells whether a pattern matches somewhere in
a text. -/
structure RegexEngine where
  finditer : Str → Str → List MatchSpan
  search : Str → Str → Bool

/-- Concatenation of the lists produced for the elements, in order: the shape
of the nested Python `for` loops that append findings. -/
def concatMap {α β : Type} (f : α → List β) : List α → List β
  | [] => []
  | a :: as => f a ++ concatMap f as

/-- A compliance rule of `ComplianceRules.get_default_rules`: `category`,
`severity`, `patterns`, optional `context_exceptions` (`none` when the key is
absent from the rule dictionary) and `page_type_rules` (the empty list when
the key is absent; `'page_type_rules' in rule and page_type in
rule['page_type_rules']` is then exactly a successful lookup). -/
structure Rule where
  category : String
  severity : String
  patterns : List Str
  context_exceptions : Option (List Str) := none
  page_type_rules : List (String × String) := []
deriving DecidableEq, Repr

/-- A finding dictionary appended by `ComplianceAnalyzer`.  The `page_type`
key is optional because two producers (`_check_https` and
`_check_required_pages`) omit it; `none` models its absence. -/
structure Finding where
  type : String
  category : String
  severity : String
  pattern : Str
  matched_text : Str
  context : Str
  location : String
  page_type : Option String := none
deriving DecidableEq, Repr

/-- The effective action of a rule for a page type:
`rule['page_type_rules'][page_type]` when both keys are present. -/
def ruleAction (rule : Rule) (pageType : String) : Option String :=
  List.lookup pageType rule.page_type_rules

/-- The `branded_medications` rule of `ComplianceRules.get_default_rules`. -/
def brandedMedicationsRule : Rule :=
  { category := "fda", severity := "high",
    patterns := ["\\bOzempic\\b".data, "\\bWegovy\\b".data, "\\bMounjaro\\b".data,
      "\\bZepbound\\b".data, "\\bSaxenda\\b".data, "\\bVictoza\\b".data,
      "\\bRybelsus\\b".data, "\\bTrulicity\\b".data],
    context_exceptions := some
      [("not\\s+(?:a\\s+substitute|the\\s+same\\s+as)\\s+\\b(?:Ozempic|Wegovy|Mounjaro|" ++
        "Zepbound|Saxenda|Victoza|Rybelsus|Trulicity)\\b").data,
       ("(?:unlike|different\\s+from)\\s+\\b(?:Ozempic|Wegovy|Mounjaro|" ++
        "Zepbound|Saxenda|Victoza|Rybelsus|Trulicity)\\b").data],
    page_type_rules := [("blog", "allow"), ("product", "check_context"),
      ("other", "check_context")] }

/-- The `miracle_claims` rule of the default rule table. -/
def miracleClaimsRule : Rule :=
  { category := "ftc", severity := "high",
    patterns := ["\\bmiraculous\\b".data, "\\bbreakthrough\\b".data, "\\bmagic\\b".data,
      "\\binstant\\b".data, "\\bimmediate\\b".data, "\\bovernight\\b".data,
      "\\bcure\\b".data, "\\bguaranteed\\b".data, "\\b100%\\s+effective\\b".data,
      "\\bno\\s+side\\s+effects\\b".data, "\\brisk[-\\s]free\\b".data] }

/-- The `weight_loss_claims` rule of the default rule table. -/
def weightLossClaimsRule : Rule :=
  { category := "ftc", severity := "high",
    patterns := ["lose\\s+\\d+\\s+(?:pounds|lbs)".data,
      "lose\\s+weight\\s+without\\s+(?:diet|exercise)".data,
      "effortless\\s+weight\\s+loss".data, "melt\\s+away\\s+fat".data,
      "burn\\s+fat\\s+while\\s+you\\s+sleep".data],
    context_exceptions := some
      [("refund\\s+(?:your\\s+)?money\\s+if\\s+\\d+\\s+(?:pounds|lbs|kg)\\s+" ++
        "(?:is|are)\\s+not\\s+lost\\s+in\\s+\\d+\\s+(?:days|weeks|months)").data] }

/-- The `prohibited_terms` rule of the default rule table. -/
def prohibitedTermsRule : Rule :=
  { category := "fda", severity := "high",
    patterns := ["\\bproven\\b".data, "\\befficacy\\b".data, "\\bsafe\\b".data,
      "\\bsemaglutide\\b".data, "\\btirzepatide\\b".data, "\\bsame\\s+ingredients\\b".data],
    page_type_rules := [("blog", "check_context"), ("product", "flag"),
      ("other", "check_context")] }

/-- The `medical_advice` rule of the default rule table. -/
def medicalAdviceRule : Rule :=
  { category := "fda", severity := "medium",
    patterns := ["(?:we|our\\s+doctors)\\s+(?:recommend|prescribe)".data,
      "(?:we|our\\s+doctors)\\s+(?:diagnose|treat|cure)".data,
      "self[-\\s]diagnose".data,
      "no\\s+(?:doctor|physician)\\s+visit\\s+(?:needed|required|necessary)".data] }

/-- The `hipaa_issues` rule of the default rule table. -/
def hipaaIssuesRule : Rule :=
  { category := "hipaa", severity := "high",
    patterns := ["(?:we|our)\\s+(?:share|sell)\\s+your\\s+(?:data|information)".data,
      ("third[-\\s]parties\\s+may\\s+access\\s+your\\s+(?:medical|health)\\s+" ++
        "(?:data|information|records)").data,
      "not\\s+responsible\\s+for\\s+(?:data|information)\\s+(?:breach|leak|security)".data] }

/-- The `prescription_issues` rule of the default rule table. -/
def prescriptionIssuesRule : Rule :=
  { category := "legitscript", severity := "high",
    patterns := ["no\\s+prescription\\s+(?:needed|required|necessary)".data,
      "prescription[-\\s]free".data,
      "(?:get|obtain)\\s+(?:medication|drugs|medicine)\\s+without\\s+(?:prescription|doctor)".data,
      "online\\s+(?:prescription|doctor)\\s+approval\\s+guaranteed".data] }

/-- The `security_issues` rule of the default rule table. -/
def securityIssuesRule : Rule :=
  { category := "technical", severity := "high",
    patterns := ["not\\s+secure".data, "http://".data, "we\\s+do\\s+not\\s+encrypt".data] }

/-- The full default rule table, in the dictionary's insertion order. -/
def defaultRules : List (String × Rule) :=
  [("branded_medications", brandedMedicationsRule),
   ("miracle_claims", miracleClaimsRule),
   ("weight_loss_claims", weightLossClaimsRule),
   ("prohibited_terms", prohibitedTermsRule),
   ("medical_advice", medicalAdviceRule),
   ("hipaa_issues", hipaaIssuesRule),
   ("prescription_issues", prescriptionIssuesRule),
   ("security_issues", securityIssuesRule)]

/-- Whether some `context_exceptions` pattern of the rule matches in the
100-character window around a match of the body text
(`ComplianceAnalyzer._analyze_text_content`, standard path). -/
def exceptionNearby (E : RegexEngine) (rule : Rule) (text : Str) (m : MatchSpan) : Bool :=
  match rule.context_exceptions with
  | none => false
  | some excs => excs.any fun exc => E.search exc (contextWindow text m 100)

/-- The standard path of the body-text scan
(`ComplianceAnalyzer._analyze_text_content`, lines after the policy
dispatch): each match of each pattern is reported unless a context exception
matches the 100-character window, with the stripped 50-character window as
the reported context. -/
def scanRuleTextStd (E : RegexEngine) (name : String) (rule : Rule) (text : Str)
    (pageType : String) : List Finding :=
  concatMap (fun p =>
    (E.finditer p text).filterMap fun m =>
      if exceptionNearby E rule text m then none
      else some
        { type := name, category := rule.category, severity := rule.severity,
          pattern := p, matched_text := matchedText text m,
          context := stripStr (contextWindow text m 50),
          location := "page_content", page_type := some pageType })
    rule.patterns

/-- The findings contributed by one rule in the body-text scan, dispatching
on the rule's action for the page's type exactly as
`_analyze_text_content` branches do. -/
def scanRuleText (E : RegexEngine) (name : String) (rule : Rule) (text : Str)
    (pageType : String) : List Finding :=
  match ruleAction rule pageType with
  | some a =>
    if a = "allow" then []
    else if a = "flag" then
      concatMap (fun p =>
        (E.finditer p text).map fun m =>
          { type := name, category := rule.category, severity := rule.severity,
            pattern := p, matched_text := matchedText text m,
            context := stripStr (contextWindow text m 50),
            location := "page_content", page_type := some pageType })
        rule.patterns
    else scanRuleTextStd E name rule text pageType
  | none => scanRuleTextStd E name rule text pageType

/-- The body-text scan over the whole rule table
(`ComplianceAnalyzer._analyze_text_content`; the `title` parameter of the
Python method is not used by its body). -/
def analyzeTextContent (E : RegexEngine) (rules : List (String × Rule)) (text : Str)
    (pageType : String) : List Finding :=
  concatMap (fun r => scanRuleText E r.1 r.2 text pageType) rules

/-- Whether some `context_exceptions` pattern of the rule matches the header
string itself (`ComplianceAnalyzer._analyze_headers`). -/
def exceptionInHeader (E : RegexEngine) (rule : Rule) (header : Str) : Bool :=
  match rule.context_exceptions with
  | none => false
  | some excs => excs.any fun exc => E.search exc header

/-- The findings contributed by one rule for one header
(`ComplianceAnalyzer._analyze_headers`): the rule is skipped when its action
for the page type is `allow`; in every other case (including `flag`) a
matching pattern is reported unless a context exception matches the header
itself, with the full header as both matched text and context. -/
def scanRuleHeader (E : RegexEngine) (name : String) (rule : Rule) (header : Str)
    (pageType : String) : List Finding :=
  if ruleAction rule pageType = some "allow" then []
  else
    rule.patterns.filterMap fun p =>
      if E.search p header then
        if exceptionInHeader E rule header then none
        else some
          { type := name, category := rule.category, severity := rule.severity,
            pattern := p, matched_text := header, context := header,
            location := "header", page_type := some pageType }
      else none

/-- The header scan (`ComplianceAnalyzer._analyze_headers`): every header
against every rule, in order. -/
def analyzeHeaders (E : RegexEngine) (rules : List (String × Rule))
    (headers : List Str) (pageType : String) : List Finding :=
  concatMap (fun header =>
    concatMap (fun r => scanRuleHeader E r.1 r.2 header pageType) rules) headers

/-- Whether some `context_exceptions` pattern of the rule matches a given
string directly (used by `_analyze_headers` on the header string and by
`_analyze_images` on an image's alt or title text, which test exceptions on
the scanned string itself rather than on an extracted window). -/
def exceptionInString (E : RegexEngine) (rule : Rule) (s : Str) : Bool :=
  match rule.context_exceptions with
  | none => false
  | some excs => excs.any fun exc => E.search exc s

/-- An `img` tag's extracted data (`TelehealthCrawler._extract_images`). -/
structure ImageData where
  src : Str
  alt : Str
  title : Str
deriving DecidableEq, Repr

/-- The findings contributed by one rule for one non-empty image text field
(`ComplianceAnalyzer._analyze_images`): `allow` skips the rule, every other
case tests context exceptions against the field text itself. -/
def scanRuleImageField (E : RegexEngine) (name : String) (rule : Rule)
    (fieldName : String) (fieldText : Str) (pageType : String) : List Finding :=
  if ruleAction rule pageType = some "allow" then []
  else
    rule.patterns.filterMap fun p =>
      if E.search p fieldText then
        if exceptionInString E rule fieldText then none
        else some
          { type := name, category := rule.category, severity := rule.severity,
            pattern := p, matched_text := fieldText,
            context := ("Image " ++ fieldName ++ ": ").data ++ fieldText,
            location := "image_" ++ fieldName, page_type := some pageType }
      else none

/-- The image scan (`ComplianceAnalyzer._analyze_images`): for each image the
`alt` then the `title` field, skipped when empty. -/
def analyzeImages (E : RegexEngine) (rules : List (String × Rule))
    (images : List ImageData) (pageType : String) : List Finding :=
  concatMap (fun image =>
    concatMap (fun fld =>
      if fld.2 = ([] : Str) then []
      else concatMap (fun r => scanRuleImageField E r.1 r.2 fld.1 fld.2 pageType) rules)
      [("alt", image.alt), ("title", image.title)])
    images

/-- One input of a form (`TelehealthCrawler._extract_forms`). -/
structure FormInput where
  type : Str
  name : Str
  id : Str
  placeholder : Str
  required : Bool
deriving DecidableEq, Repr

/-- One form of a page (`TelehealthCrawler._extract_forms`). -/
structure FormData where
  action : Str
  method : Str
  inputs : List FormInput
deriving DecidableEq, Repr

/-- The health-vocabulary patterns of `ComplianceAnalyzer._analyze_forms`. -/
def healthPatterns : List Str :=
  ["health".data, "medical".data, "symptom".data, "condition".data,
   "diagnosis".data, "treatment".data, "medication".data, "prescription".data,
   "weight".data, "height".data, "bmi".data, "blood".data]

/-- Whether a form input is health-sensitive: some health pattern matches its
lower-cased name, id or placeholder (`ComplianceAnalyzer._analyze_forms`). -/
def sensitiveInput (E : RegexEngine) (i : FormInput) : Bool :=
  healthPatterns.any fun p =>
    E.search p (lowerStr i.name) || E.search p (lowerStr i.id) ||
      E.search p (lowerStr i.placeholder)

/-- The findings for the form at a given index
(`ComplianceAnalyzer._analyze_forms`): an insecure-action finding when the
action is non-empty and starts with `http://`, and a method finding when some
input is health-sensitive and the method is not POST. -/
def analyzeFormIndexed (E : RegexEngine) (idx : Nat) (form : FormData)
    (pageType : String) : List Finding :=
  (if form.action ≠ ([] : Str) ∧ ("http://".data).isPrefixOf form.action then
    [{ type := "security_issues", category := "technical", severity := "high",
       pattern := "http://".data, matched_text := form.action,
       context := "Form submits to non-secure URL: ".data ++ form.action,
       location := "form_" ++ toString idx ++ "_action", page_type := some pageType }]
   else [])
  ++
  (if form.inputs.any (sensitiveInput E) ∧ lowerStr form.method ≠ "post".data then
    [{ type := "security_issues", category := "technical", severity := "medium",
       pattern := "form method".data, matched_text := form.method,
       context := "Form with sensitive health information uses ".data ++ form.method
         ++ " method instead of POST".data,
       location := "form_" ++ toString idx ++ "_method", page_type := some pageType }]
   else [])

/-- The form scan over the enumerated forms of a page
(`ComplianceAnalyzer._analyze_forms`). -/
def analyzeForms (E : RegexEngine) (forms : List FormData) (pageType : String) :
    List Finding :=
  concatMap (fun p => analyzeFormIndexed E p.1 p.2 pageType) forms.enum

/-- The per-page transport check (`ComplianceAnalyzer._check_https`): a page
whose URL starts with `http://` yields one `security_issues` finding.  The
appended dictionary has no `page_type` key, hence `page_type := none`. -/
def checkHttps (url : Str) : List Finding :=
  if ("http://".data).isPrefixOf url then
    [{ type := "security_issues", category := "technical", severity := "high",
       pattern := "http://".data, matched_text := url,
       context := "Non-secure URL: ".data ++ url, location := "url" }]
  else []

/-- The privacy-policy indicator patterns of
`ComplianceAnalyzer._check_required_pages`. -/
def privacyPatterns : List Str :=
  ["privacy".data, "privacy\\s+policy".data, "privacy\\s+notice".data]

/-- The terms-of-service indicator patterns of
`ComplianceAnalyzer._check_required_pages`. -/
def termsPatterns : List Str :=
  ["terms".data, "terms\\s+of\\s+(?:use|service)".data, "conditions".data]

/-- Whether a privacy indicator is found anywhere: in some page URL, or in
some page's lower-cased text.  In the source the text loop runs only when the
URL loop left a flag unset, which computes exactly this disjunction. -/
def privacyFoundIn (E : RegexEngine) (pages : List (Str × Str)) : Bool :=
  pages.any (fun pg => privacyPatterns.any fun p => E.search p pg.1) ||
    pages.any (fun pg => privacyPatterns.any fun p => E.search p (lowerStr pg.2))

/-- Whether a terms indicator is found anywhere (see `privacyFoundIn`). -/
def termsFoundIn (E : RegexEngine) (pages : List (Str × Str)) : Bool :=
  pages.any (fun pg => termsPatterns.any fun p => E.search p pg.1) ||
    pages.any (fun pg => termsPatterns.any fun p => E.search p (lowerStr pg.2))

/-- The `missing_privacy_policy` finding; the appended dictionary has no
`page_type` key. -/
def missingPrivacyFinding : Finding :=
  { type := "missing_privacy_policy", category := "hipaa", severity := "high",
    pattern := "privacy policy".data, matched_text := "N/A".data,
    context := "No privacy policy found on the website".data, location := "site_wide" }

/-- The `missing_terms` finding; the appended dictionary has no `page_type`
key. -/
def missingTermsFinding : Finding :=
  { type := "missing_terms", category := "legal", severity := "medium",
    pattern := "terms of service".data, matched_text := "N/A".data,
    context := "No terms of service found on the website".data, location := "site_wide" }

/-- The site-wide check (`ComplianceAnalyzer._check_required_pages`), as the
list of findings appended under the `site_wide` key, given the corpus as a
list of (url, text) pairs. -/
def checkRequiredPages (E : RegexEngine) (pages : List (Str × Str)) : List Finding :=
  (if privacyFoundIn E pages then [] else [missingPrivacyFinding]) ++
    (if termsFoundIn E pages then [] else [missingTermsFinding])

/-- The scores dictionary of `ComplianceAnalyzer`.  Weights 0.5 and 1.5 are
exactly representable in binary floating point and all tallies are exact
sums of such weights, so rationals are a faithful model of the Python floats. -/
structure Scores where
  hipaa : ℚ
  fda : ℚ
  legitscript : ℚ
  ftc : ℚ
  technical : ℚ
  total : ℚ
deriving DecidableEq, Repr

/-- The tally of findings with a given category and severity
(`ComplianceAnalyzer._calculate_scores`, whose guard
`category in category_counts and severity in category_counts[category]`
means only the five scored categories and three severities are tallied). -/
def countFindings (findings : List Finding) (cat sev : String) : Nat :=
  (findings.filter fun f => f.category = cat ∧ f.severity = sev).length

/-- The score calculator (`ComplianceAnalyzer._calculate_scores`) over the
flattened list of all findings of a run. -/
def calculateScores (findings : List Finding) : Scores :=
  let hipaaDeductions : ℚ := (countFindings findings "hipaa" "high" : ℚ) * 5 +
    (countFindings findings "hipaa" "medium" : ℚ) * 2 +
    (countFindings findings "hipaa" "low" : ℚ) * 0.5
  let fdaDeductions : ℚ := (countFindings findings "fda" "high" : ℚ) * 5 +
    (countFindings findings "fda" "medium" : ℚ) * 2 +
    (countFindings findings "fda" "low" : ℚ) * 0.5
  let legitscriptDeductions : ℚ := (countFindings findings "legitscript" "high" : ℚ) * 4 +
    (countFindings findings "legitscript" "medium" : ℚ) * 1.5 +
    (countFindings findings "legitscript" "low" : ℚ) * 0.5
  let ftcDeductions : ℚ := (countFindings findings "ftc" "high" : ℚ) * 3 +
    (countFindings findings "ftc" "medium" : ℚ) * 1.5 +
    (countFindings findings "ftc" "low" : ℚ) * 0.5
  let technicalDeductions : ℚ := (countFindings findings "technical" "high" : ℚ) * 3 +
    (countFindings findings "technical" "medium" : ℚ) * 1.5 +
    (countFindings findings "technical" "low" : ℚ) * 0.5
  let hipaa : ℚ := max 0 (25 - min hipaaDeductions 25)
  let fda : ℚ := max 0 (25 - min fdaDeductions 25)
  let legitscript : ℚ := max 0 (20 - min legitscriptDeductions 20)
  let ftc : ℚ := max 0 (15 - min ftcDeductions 15)
  let technical : ℚ := max 0 (15 - min technicalDeductions 15)
  { hipaa := hipaa, fda := fda, legitscript := legitscript, ftc := ftc,
    technical := technical,
    total := hipaa + fda + legitscript + ftc + technical }

/-- The value returned by `ComplianceAnalyzer.analyze_pages`: the findings
(unchanged) together with the scores computed from them. -/
structure AnalysisResult where
  findings : List Finding
  scores : Scores
deriving DecidableEq, Repr

/-- Packaging of `analyze_pages`'s return value from the accumulated findings. -/
def analysisReport (findings : List Finding) : AnalysisResult :=
  { findings := findings, scores := calculateScores findings }

/-- Final state of a crawl (`TelehealthCrawler.crawl`): the visited set in
insertion order, the remaining frontier queue, and — as an instrumentation of
the loop — the ordered log of the URLs passed to `_get_page_content`. -/
structure CrawlResult (α : Type) where
  visited : List α
  queue : List α
  log : List α
deriving DecidableEq, Repr

/-- The link-enqueueing loop of `TelehealthCrawler.crawl`: each extracted link
is appended to the queue when it is neither visited nor already queued (the
`_extract_links` pre-filter against the visited set is checked again here and
is therefore absorbed by this condition). -/
def enqueueLinks {α : Type} [DecidableEq α] (visited links queue : List α) : List α :=
  links.foldl (fun q l => if l ∉ visited ∧ l ∉ q then q ++ [l] else q) queue

/-- The crawl loop of `TelehealthCrawler.crawl` over an abstract web: `web u`
is `some links` when fetching `u` yields HTTP 200 with the given same-domain
links, and `none` when the fetch fails or returns a non-200 status.  The loop
pops the queue while it is non-empty and the visited set is below `maxPages`;
an already-visited URL is skipped before any fetch; a successful fetch
records the page, enqueues its fresh links and adds the URL to the visited
set; a failed fetch only logs the attempt. -/
def crawlLoop {α : Type} [DecidableEq α] (web : α → Option (List α)) (maxPages : Nat) :
    List α → List α → List α → CrawlResult α
  | [], visited, log => ⟨visited, [], log⟩
  | u :: rest, visited, log =>
    if visited.length < maxPages then
      if u ∈ visited then crawlLoop web maxPages rest visited log
      else
        match web u with
        | some links =>
          crawlLoop web maxPages (enqueueLinks visited links rest)
            (visited ++ [u]) (log ++ [u])
        | none => crawlLoop web maxPages rest visited (log ++ [u])
    else ⟨visited, u :: rest, log⟩
termination_by q v _ => (maxPages - v.length, q.length)

/-- A whole crawl: the loop started on the queue holding the seed URL, with
empty visited set and log. -/
def crawl {α : Type} [DecidableEq α] (web : α → Option (List α)) (seed : α)
    (maxPages : Nat) : CrawlResult α :=
  crawlLoop web maxPages [seed] [] []

/-- Reachability in the abstract web: the seed is reachable, and every link of
a successfully fetched reachable page is reachable. -/
inductive Reachable {α : Type} (web : α → Option (List α)) (seed : α) : α → Prop
  | seed : Reachable web seed seed
  | step {u l : α} {ls : List α} : Reachable web seed u → web u = some ls →
      l ∈ ls → Reachable web seed l

/-- Substring test: whether the needle occurs contiguously in the haystack. -/
def strContains (needle hay : Str) : Bool :=
  (List.range (hay.length + 1)).any fun i => needle.isPrefixOf (hay.drop i)

/-- A concrete instance of the abstract engine for witnesses: a pattern is
taken as a literal string and matched case-insensitively. -/
def litFinditer (p text : Str) : List MatchSpan :=
  if p = [] then []
  else
    (List.range (text.length + 1)).filterMap fun i =>
      if (lowerStr p).isPrefixOf (lowerStr (text.drop i)) then
        some ⟨i, i + p.length⟩
      else none

/-- The literal, case-insensitive witness engine. -/
def litE : RegexEngine :=
  { finditer := litFinditer,
    search := fun p text => strContains (lowerStr p) (lowerStr text) }

/-- An engine in which no pattern ever matches. -/
def falseE : RegexEngine :=
  { finditer := fun _ _ => [], search := fun _ _ => false }

/-- An engine in which every pattern matches everywhere. -/
def trueE : RegexEngine :=
  { finditer := fun _ _ => [⟨0, 0⟩], search := fun _ _ => true }

/-- A witness rule with literal-string patterns mirroring `prohibited_terms`
(same category, severity and page-type policy, with an added literal context
exception to exercise the flag policy). -/
def prohibitedTermsLitRule : Rule :=
  { category := "fda", severity := "high", patterns := ["proven".data],
    context_exceptions := some ["not a substitute".data],
    page_type_rules := [("blog", "check_context"), ("product", "flag"),
      ("other", "check_context")] }

/-- A witness rule with literal-string patterns mirroring
`branded_medications` (same category, severity and page-type policy). -/
def brandedMedicationsLitRule : Rule :=
  { category := "fda", severity := "high", patterns := ["ozempic".data],
    context_exceptions := some ["not a substitute".data],
    page_type_rules := [("blog", "allow"), ("product", "check_context"),
      ("other", "check_context")] }

/-- A product-page sample text: `proven`, then more than one hundred
characters of filler, then an exception phrase. -/
def productSampleText : Str :=
  ("Our treatment is proven to help. " ++
   "Many patients ask about results, pricing, delivery and support options " ++
   "before they decide to start the program with us. " ++
   "This product is not a substitute for anything.").data

/-- A rule whose page-type policy is `flag` on product pages and which also
has a context exception matching its own pattern: it separates the body-text
scan (exceptions ignored under `flag`) from the header scan (exceptions
always consulted). -/
def flagExceptionRule : Rule :=
  { category := "fda", severity := "high", patterns := ["proven".data],
    context_exceptions := some ["proven".data],
    page_type_rules := [("product", "flag")] }

/-- A small web in which every fetch succeeds. -/
def totalWeb (n : Nat) : Option (List Nat) :=
  some (match n with | 0 => [1, 2] | 1 => [0, 3] | _ => [])

/-- A small web in which fetching page 1 always fails: page 0 links to 1 and
2, and page 2 links to 1 again, so 1 is rediscovered after its failed fetch. -/
def failWeb (n : Nat) : Option (List Nat) :=
  match n with
  | 0 => some [1, 2]
  | 1 => none
  | 2 => some [1]
  | _ => some []

/-- The findings list of the scoring example: two hipaa/high findings and one
hipaa/medium finding. -/
def hipaaExampleFindings : List Finding :=
  [{ type := "hipaa_issues", category := "hipaa", severity := "high",
     pattern := "p1".data, matched_text := "m1".data, context := "c1".data,
     location := "page_content", page_type := some "other" },
   { type := "hipaa_issues", category := "hipaa", severity := "high",
     pattern := "p2".data, matched_text := "m2".data, context := "c2".data,
     location := "page_content", page_type := some "other" },
   { type := "hipaa_issues", category := "hipaa", severity := "medium",
     pattern := "p3".data, matched_text := "m3".data, context := "c3".data,
     location := "page_content", page_type := some "other" }]

/-- A scored sample finding for the unscored-category witness. -/
def sampleHipaaFinding : Finding :=
  { type := "hipaa_issues", category := "hipaa", severity := "high",
    pattern := "p".data, matched_text := "m".data, context := "c".data,
    location := "page_content", page_type := some "other" }

/-- Membership in a `concatMap`: an element comes from some source element. -/
theorem mem_concatMap {α β : Type} {f : α → List β} {l : List α} {b : β} :
    b ∈ concatMap f l ↔ ∃ a ∈ l, b ∈ f a := by
  induction l with
  | nil => simp [concatMap]
  | cons x xs ih => simp [concatMap, ih]

/-- Tallies are additive over list append. -/
theorem countFindings_append (fs gs : List Finding) (cat sev : String) :
    countFindings (fs ++ gs) cat sev = countFindings fs cat sev + countFindings gs cat sev := by
  simp [countFindings, List.filter_append]

/-- A finding that does not bear the tallied category and severity is not
counted. -/
theorem countFindings_singleton_ne (f : Finding) (cat sev : String)
    (h : ¬(f.category = cat ∧ f.severity = sev)) : countFindings [f] cat sev = 0 := by
  simp [countFindings, h]

/-- The clamped score `max 0 (cap - min d cap)` stays inside `[0, cap]` for
nonnegative deductions. -/
theorem scoreClamp_bounds {cap d : ℚ} (hcap : 0 ≤ cap) (hd : 0 ≤ d) :
    0 ≤ max 0 (cap - min d cap) ∧ max 0 (cap - min d cap) ≤ cap := by
  refine ⟨le_max_left _ _, max_le hcap ?_⟩
  have h : 0 ≤ min d cap := le_min hd hcap
  linarith

/-- C1: each of the five category scores equals
`max(0, cap − min(cap, Σ severity_count × weight))` with the caps and weights
of the specification table, the total is the sum of the five category scores
and lies in `[0, 100]`; two hipaa/high findings plus one hipaa/medium finding
yield a hipaa score of 13, and an empty finding set yields a total of 100. -/
theorem calculateScores_spec (findings : List Finding) :
    ((calculateScores findings).hipaa = max 0 (25 - min 25
        ((countFindings findings "hipaa" "high" : ℚ) * 5 +
         (countFindings findings "hipaa" "medium" : ℚ) * 2 +
         (countFindings findings "hipaa" "low" : ℚ) * 0.5)) ∧
     (calculateScores findings).fda = max 0 (25 - min 25
        ((countFindings findings "fda" "high" : ℚ) * 5 +
         (countFindings findings "fda" "medium" : ℚ) * 2 +
         (countFindings findings "fda" "low" : ℚ) * 0.5)) ∧
     (calculateScores findings).legitscript = max 0 (20 - min 20
        ((countFindings findings "legitscript" "high" : ℚ) * 4 +
         (countFindings findings "legitscript" "medium" : ℚ) * 1.5 +
         (countFindings findings "legitscript" "low" : ℚ) * 0.5)) ∧
     (calculateScores findings).ftc = max 0 (15 - min 15
        ((countFindings findings "ftc" "high" : ℚ) * 3 +
         (countFindings findings "ftc" "medium" : ℚ) * 1.5 +
         (countFindings findings "ftc" "low" : ℚ) * 0.5)) ∧
     (calculateScores findings).technical = max 0 (15 - min 15
        ((countFindings findings "technical" "high" : ℚ) * 3 +
         (countFindings findings "technical" "medium" : ℚ) * 1.5 +
         (countFindings findings "technical" "low" : ℚ) * 0.5))) ∧
    (calculateScores findings).total =
      (calculateScores findings).hipaa + (calculateScores findings).fda +
      (calculateScores findings).legitscript + (calculateScores findings).ftc +
      (calculateScores findings).technical ∧
    (0 ≤ (calculateScores findings).total ∧ (calculateScores findings).total ≤ 100) ∧
    (calculateScores hipaaExampleFindings).hipaa = 13 ∧
    (calculateScores ([] : List Finding)).total = 100 := by
  refine ⟨⟨?_, ?_, ?_, ?_, ?_⟩, ?_, ?_, ?_, ?_⟩
  · simp [calculateScores, min_comm]
  · simp [calculateScores, min_comm]
  · simp [calculateScores, min_comm]
  · simp [calculateScores, min_comm]
  · simp [calculateScores, min_comm]
  · simp [calculateScores]
  · have d1 : (0:ℚ) ≤ (countFindings findings "hipaa" "high" : ℚ) * 5 +
        (countFindings findings "hipaa" "medium" : ℚ) * 2 +
        (countFindings findings "hipaa" "low" : ℚ) * 0.5 := by positivity
    have d2 : (0:ℚ) ≤ (countFindings findings "fda" "high" : ℚ) * 5 +
        (countFindings findings "fda" "medium" : ℚ) * 2 +
        (countFindings findings "fda" "low" : ℚ) * 0.5 := by positivity
    have d3 : (0:ℚ) ≤ (countFindings findings "legitscript" "high" : ℚ) * 4 +
        (countFindings findings "legitscript" "medium" : ℚ) * 1.5 +
        (countFindings findings "legitscript" "low" : ℚ) * 0.5 := by positivity
    have d4 : (0:ℚ) ≤ (countFindings findings "ftc" "high" : ℚ) * 3 +
        (countFindings findings "ftc" "medium" : ℚ) * 1.5 +
        (countFindings findings "ftc" "low" : ℚ) * 0.5 := by positivity
    have d5 : (0:ℚ) ≤ (countFindings findings "technical" "high" : ℚ) * 3 +
        (countFindings findings "technical" "medium" : ℚ) * 1.5 +
        (countFindings findings "technical" "low" : ℚ) * 0.5 := by positivity
    have c1 := scoreClamp_bounds (by norm_num : (0:ℚ) ≤ 25) d1
    have c2 := scoreClamp_bounds (by norm_num : (0:ℚ) ≤ 25) d2
    have c3 := scoreClamp_bounds (by norm_num : (0:ℚ) ≤ 20) d3
    have c4 := scoreClamp_bounds (by norm_num : (0:ℚ) ≤ 15) d4
    have c5 := scoreClamp_bounds (by norm_num : (0:ℚ) ≤ 15) d5
    simp only [calculateScores]
    constructor
    · linarith [c1.1, c2.1, c3.1, c4.1, c5.1]
    · linarith [c1.2, c2.2, c3.2, c4.2, c5.2]
  · simp +decide [calculateScores, countFindings, hipaaExampleFindings, List.filter]
    norm_num [min_def, max_def]
  · simp +decide [calculateScores, countFindings, List.filter]
    norm_num [min_def, max_def]

/-- Every finding whose category is not scored, or whose severity is not a
scored tier, changes none of the tallies that feed the scores. -/
theorem calculateScores_append_unscored (fs : List Finding) (f : Finding)
    (h : f.category ∉ (["hipaa", "fda", "legitscript", "ftc", "technical"] : List String) ∨
      f.severity ∉ (["high", "medium", "low"] : List String)) :
    calculateScores (fs ++ [f]) = calculateScores fs := by
  have key : ∀ cat sev : String,
      cat ∈ (["hipaa", "fda", "legitscript", "ftc", "technical"] : List String) →
      sev ∈ (["high", "medium", "low"] : List String) →
      countFindings (fs ++ [f]) cat sev = countFindings fs cat sev := by
    intro cat sev hcat hsev
    have h0 : countFindings [f] cat sev = 0 := by
      apply countFindings_singleton_ne
      rintro ⟨h1, h2⟩
      rcases h with h | h
      · subst h1; exact h hcat
      · subst h2; exact h hsev
    rw [countFindings_append, h0, Nat.add_zero]
  simp only [calculateScores]
  rw [key "hipaa" "high" (by simp) (by simp), key "hipaa" "medium" (by simp) (by simp),
    key "hipaa" "low" (by simp) (by simp), key "fda" "high" (by simp) (by simp),
    key "fda" "medium" (by simp) (by simp), key "fda" "low" (by simp) (by simp),
    key "legitscript" "high" (by simp) (by simp),
    key "legitscript" "medium" (by simp) (by simp),
    key "legitscript" "low" (by simp) (by simp), key "ftc" "high" (by simp) (by simp),
    key "ftc" "medium" (by simp) (by simp), key "ftc" "low" (by simp) (by simp),
    key "technical" "high" (by simp) (by simp),
    key "technical" "medium" (by simp) (by simp),
    key "technical" "low" (by simp) (by simp)]

/-- C8: a finding whose category is outside the five scored categories, or
whose severity is outside high/medium/low, contributes nothing to any score,
while the reported finding set keeps it unchanged; in particular appending a
`missing_terms` finding (category `legal`) leaves every score as it was. -/
theorem unscored_finding_reported_not_scored (fs : List Finding) (f : Finding)
    (h : f.category ∉ (["hipaa", "fda", "legitscript", "ftc", "technical"] : List String) ∨
      f.severity ∉ (["high", "medium", "low"] : List String)) :
    calculateScores (fs ++ [f]) = calculateScores fs ∧
    (analysisReport (fs ++ [f])).findings = fs ++ [f] ∧
    calculateScores (fs ++ [missingTermsFinding]) = calculateScores fs := by
  refine ⟨calculateScores_append_unscored fs f h, rfl,
    calculateScores_append_unscored fs missingTermsFinding ?_⟩
  left; decide

/-- Witness for C8: the `missing_terms` finding leaves the scores of a
one-finding run unchanged. -/
theorem unscored_finding_witness :
    calculateScores ([sampleHipaaFinding] ++ [missingTermsFinding]) =
      calculateScores [sampleHipaaFinding] :=
  (unscored_finding_reported_not_scored [sampleHipaaFinding] missingTermsFinding
    (Or.inl (by decide))).1

/-- The exception test is the same whether the absent key is modelled by
`none` or by an empty pattern list. -/
theorem exceptionNearby_getD (E : RegexEngine) (rule : Rule) (text : Str) (m : MatchSpan) :
    exceptionNearby E rule text m =
      (rule.context_exceptions.getD []).any fun exc =>
        E.search exc (contextWindow text m 100) := by
  cases h : rule.context_exceptions <;> simp [exceptionNearby, h]

/-- C2: when a page's type resolves a rule's page-type policy to `flag`, the
body-text scan reports every match of every pattern unconditionally — its
output does not depend on the rule's `context_exceptions` — and each
finding's context snippet is the (stripped) window of 50 characters before
and after the match. -/
theorem flag_policy_reports_all (E : RegexEngine) (name : String) (rule : Rule)
    (text : Str) (pageType : String)
    (h : ruleAction rule pageType = some "flag") :
    scanRuleText E name rule text pageType =
      concatMap (fun p =>
        (E.finditer p text).map fun m =>
          { type := name, category := rule.category, severity := rule.severity,
            pattern := p,
            matched_text := (text.drop m.start).take (m.stop - m.start),
            context := stripStr ((text.drop (m.start - 50)).take
              (min text.length (m.stop + 50) - (m.start - 50))),
            location := "page_content", page_type := some pageType })
        rule.patterns
    ∧ ∀ excs : Option (List Str),
        scanRuleText E name { rule with context_exceptions := excs } text pageType =
          scanRuleText E name rule text pageType := by
  have h2 : ∀ excs : Option (List Str),
      ruleAction { rule with context_exceptions := excs } pageType = some "flag" := fun _ => h
  constructor
  · simp [scanRuleText, h, matchedText, contextWindow, pySlice]
  · intro excs
    simp [scanRuleText, h, h2 excs]

/-- Witness for C2: on a product page, the `flag` policy of a
prohibited-terms rule reports the single match of `proven` even though the
text also carries the rule's exception phrase further on. -/
theorem flag_policy_witness :
    (scanRuleText litE "prohibited_terms" prohibitedTermsLitRule productSampleText
      "product").length = 1 := by
  rw [(flag_policy_reports_all litE "prohibited_terms" prohibitedTermsLitRule
    productSampleText "product" (by decide)).1]
  decide

/-- C3: when a rule has no page-type policy for the page's type, or its
policy is `check_context`, each pattern match of the body-text scan is
suppressed exactly when some `context_exceptions` pattern matches the window
of 100 characters before and after the match, and a reported finding carries
the tighter (stripped) 50-character window as its context snippet. -/
theorem check_context_policy_scan (E : RegexEngine) (name : String) (rule : Rule)
    (text : Str) (pageType : String)
    (h : ruleAction rule pageType = none ∨ ruleAction rule pageType = some "check_context") :
    scanRuleText E name rule text pageType =
      concatMap (fun p =>
        (E.finditer p text).filterMap fun m =>
          if (rule.context_exceptions.getD []).any (fun exc =>
              E.search exc ((text.drop (m.start - 100)).take
                (min text.length (m.stop + 100) - (m.start - 100)))) then
            none
          else some
            { type := name, category := rule.category, severity := rule.severity,
              pattern := p,
              matched_text := (text.drop m.start).take (m.stop - m.start),
              context := stripStr ((text.drop (m.start - 50)).take
                (min text.length (m.stop + 50) - (m.start - 50))),
              location := "page_content", page_type := some pageType })
        rule.patterns := by
  have he : ∀ m, exceptionNearby E rule text m =
      (rule.context_exceptions.getD []).any fun exc =>
        E.search exc (contextWindow text m 100) := fun m => exceptionNearby_getD E rule text m
  rcases h with h | h <;>
    simp [scanRuleText, scanRuleTextStd, h, he, matchedText, contextWindow, pySlice]

/-- Witness for C3: the specification's example — on a page without a flag
override, a branded-medication match in `semaglutide is not a substitute for
Ozempic` is suppressed because the exception phrase lies in the 100-character
window. -/
theorem check_context_policy_witness :
    scanRuleText litE "branded_medications" brandedMedicationsLitRule
      "semaglutide is not a substitute for Ozempic".data "other" = [] := by
  rw [check_context_policy_scan litE "branded_medications" brandedMedicationsLitRule
    "semaglutide is not a substitute for Ozempic".data "other" (Or.inr (by decide))]
  decide

/-- Pointwise-equal functions give equal concatenations. -/
theorem concatMap_congr {α β : Type} {f g : α → List β} {l : List α}
    (h : ∀ a ∈ l, f a = g a) : concatMap f l = concatMap g l := by
  induction l with
  | nil => rfl
  | cons x xs ih =>
    simp only [concatMap, h x (by simp)]
    rw [ih fun a ha => h a (by simp [ha])]

/-- Pointwise-equal functions give equal filterMaps. -/
theorem filterMap_congr_mem {α β : Type} {f g : α → Option β} {l : List α}
    (h : ∀ a ∈ l, f a = g a) : l.filterMap f = l.filterMap g := by
  induction l with
  | nil => rfl
  | cons x xs ih =>
    simp only [List.filterMap_cons, h x (by simp)]
    rw [ih fun a ha => h a (by simp [ha])]

/-- The header-scan exception test is the same whether the absent key is
modelled by `none` or by an empty pattern list. -/
theorem exceptionInHeader_getD (E : RegexEngine) (rule : Rule) (s : Str) :
    exceptionInHeader E rule s =
      (rule.context_exceptions.getD []).any fun exc => E.search exc s := by
  cases h : rule.context_exceptions <;> simp [exceptionInHeader, h]

/-- Counterexample to C4: a rule whose policy for product pages is `flag` and
whose `context_exceptions` match the header itself.  The pattern matches the
header, yet the header scan emits no finding: unlike the body-text scan,
`_analyze_headers` has no `flag` branch and consults `context_exceptions`
for every non-`allow` action, so the claim that every pattern match is
reported under `flag` without consulting the exceptions is false. -/
theorem header_flag_counterexample :
    ruleAction flagExceptionRule "product" = some "flag" ∧
    litE.search "proven".data "proven results".data = true ∧
    analyzeHeaders litE [("prohibited_terms", flagExceptionRule)]
      ["proven results".data] "product" = [] := by
  refine ⟨by decide, by decide, ?_⟩
  decide

/-- One rule of the header scan, written as the amended specification reads:
`allow` skips the rule; every other action — including `flag` — reports a
matching pattern unless some context exception matches the header itself. -/
theorem scanRuleHeader_spec (E : RegexEngine) (name : String) (rule : Rule)
    (header : Str) (pageType : String) :
    scanRuleHeader E name rule header pageType =
      if ruleAction rule pageType = some "allow" then []
      else
        rule.patterns.filterMap fun p =>
          if E.search p header ∧
              ¬ (rule.context_exceptions.getD []).any (fun exc => E.search exc header) then
            some
              { type := name, category := rule.category, severity := rule.severity,
                pattern := p, matched_text := header, context := header,
                location := "header", page_type := some pageType }
          else none := by
  unfold scanRuleHeader
  by_cases ha : ruleAction rule pageType = some "allow"
  · simp [ha]
  · rw [if_neg ha, if_neg ha]
    apply filterMap_congr_mem
    intro p _
    rw [← exceptionInHeader_getD]
    cases hs : E.search p header <;> cases hx : exceptionInHeader E rule header <;>
      simp [hs, hx]

/-- C4 amended: the header scan applies the `allow` page-type policy as the
body-text scan does, but `flag` is not special-cased: for every non-`allow`
action and for rules without a policy for the page's type, the rule's
`context_exceptions` (when present) are tested against the header string
itself and suppress the match, and a reported finding's matched text and
context both equal the full header string. -/
theorem header_scan_spec (E : RegexEngine) (rules : List (String × Rule))
    (headers : List Str) (pageType : String) :
    analyzeHeaders E rules headers pageType =
      concatMap (fun header =>
        concatMap (fun r =>
          if ruleAction r.2 pageType = some "allow" then []
          else
            r.2.patterns.filterMap fun p =>
              if E.search p header ∧
                  ¬ (r.2.context_exceptions.getD []).any (fun exc => E.search exc header) then
                some
                  { type := r.1, category := r.2.category, severity := r.2.severity,
                    pattern := p, matched_text := header, context := header,
                    location := "header", page_type := some pageType }
              else none)
          rules)
        headers := by
  unfold analyzeHeaders
  apply concatMap_congr
  intro header _
  apply concatMap_congr
  intro r _
  exact scanRuleHeader_spec E r.1 r.2 header pageType

/-- Findings of the standard body-text path carry the page's type. -/
theorem scanRuleTextStd_page_type (E : RegexEngine) (name : String) (rule : Rule)
    (text : Str) (pageType : String) :
    ∀ f ∈ scanRuleTextStd E name rule text pageType, f.page_type = some pageType := by
  intro f hf
  unfold scanRuleTextStd at hf
  rw [mem_concatMap] at hf
  obtain ⟨p, _, hf⟩ := hf
  rw [List.mem_filterMap] at hf
  obtain ⟨m, _, hm⟩ := hf
  split at hm
  · cases hm
  · cases hm; rfl

/-- Findings of the body-text scan carry the page's type. -/
theorem scanRuleText_page_type (E : RegexEngine) (name : String) (rule : Rule)
    (text : Str) (pageType : String) :
    ∀ f ∈ scanRuleText E name rule text pageType, f.page_type = some pageType := by
  intro f hf
  unfold scanRuleText at hf
  split at hf
  · split at hf
    · simp at hf
    · split at hf
      · rw [mem_concatMap] at hf
        obtain ⟨p, _, hf⟩ := hf
        rw [List.mem_map] at hf
        obtain ⟨m, _, hm⟩ := hf
        cases hm; rfl
      · exact scanRuleTextStd_page_type E name rule text pageType f hf
  · exact scanRuleTextStd_page_type E name rule text pageType f hf

/-- Findings of the header scan carry the page's type. -/
theorem scanRuleHeader_page_type (E : RegexEngine) (name : String) (rule : Rule)
    (header : Str) (pageType : String) :
    ∀ f ∈ scanRuleHeader E name rule header pageType, f.page_type = some pageType := by
  intro f hf
  unfold scanRuleHeader at hf
  split at hf
  · simp at hf
  · rw [List.mem_filterMap] at hf
    obtain ⟨p, _, hm⟩ := hf
    split at hm
    · split at hm
      · cases hm
      · cases hm; rfl
    · cases hm

/-- Findings of the image scan carry the page's type. -/
theorem scanRuleImageField_page_type (E : RegexEngine) (name : String) (rule : Rule)
    (fieldName : String) (fieldText : Str) (pageType : String) :
    ∀ f ∈ scanRuleImageField E name rule fieldName fieldText pageType,
      f.page_type = some pageType := by
  intro f hf
  unfold scanRuleImageField at hf
  split at hf
  · simp at hf
  · rw [List.mem_filterMap] at hf
    obtain ⟨p, _, hm⟩ := hf
    split at hm
    · split at hm
      · cases hm
      · cases hm; rfl
    · cases hm

/-- Findings of the form scan carry the page's type. -/
theorem analyzeFormIndexed_page_type (E : RegexEngine) (idx : Nat) (form : FormData)
    (pageType : String) :
    ∀ f ∈ analyzeFormIndexed E idx form pageType, f.page_type = some pageType := by
  intro f hf
  unfold analyzeFormIndexed at hf
  rw [List.mem_append] at hf
  rcases hf with hf | hf <;> split at hf <;> simp at hf <;> subst hf <;> rfl

/-- Counterexample to C9: the transport check on an insecure page URL and
both site-wide findings are appended without any `page_type` key. -/
theorem finding_page_type_counterexample :
    (checkHttps "http://example.com/".data).map Finding.page_type = [none] ∧
    (checkRequiredPages falseE [("https://example.com/".data, "welcome".data)]).map
      Finding.page_type = [none, none] := by
  constructor <;> decide

/-- C9 amended: findings of the body-text, header, image and form scans all
carry a `page_type` field holding the page's type, but the findings of the
per-page transport check on the URL (`_check_https`) and of the site-wide
check (`_check_required_pages`) omit the `page_type` key. -/
theorem finding_page_type_spec (E : RegexEngine) (rules : List (String × Rule))
    (text : Str) (headers : List Str) (images : List ImageData)
    (forms : List FormData) (url : Str) (pages : List (Str × Str)) (pageType : String) :
    (∀ f ∈ analyzeTextContent E rules text pageType, f.page_type = some pageType) ∧
    (∀ f ∈ analyzeHeaders E rules headers pageType, f.page_type = some pageType) ∧
    (∀ f ∈ analyzeImages E rules images pageType, f.page_type = some pageType) ∧
    (∀ f ∈ analyzeForms E forms pageType, f.page_type = some pageType) ∧
    (∀ f ∈ checkHttps url, f.page_type = none) ∧
    (∀ f ∈ checkRequiredPages E pages, f.page_type = none) := by
  refine ⟨?_, ?_, ?_, ?_, ?_, ?_⟩
  · intro f hf
    unfold analyzeTextContent at hf
    rw [mem_concatMap] at hf
    obtain ⟨r, _, hf⟩ := hf
    exact scanRuleText_page_type E r.1 r.2 text pageType f hf
  · intro f hf
    unfold analyzeHeaders at hf
    rw [mem_concatMap] at hf
    obtain ⟨header, _, hf⟩ := hf
    rw [mem_concatMap] at hf
    obtain ⟨r, _, hf⟩ := hf
    exact scanRuleHeader_page_type E r.1 r.2 header pageType f hf
  · intro f hf
    unfold analyzeImages at hf
    rw [mem_concatMap] at hf
    obtain ⟨image, _, hf⟩ := hf
    rw [mem_concatMap] at hf
    obtain ⟨fld, _, hf⟩ := hf
    split at hf
    · simp at hf
    · rw [mem_concatMap] at hf
      obtain ⟨r, _, hf⟩ := hf
      exact scanRuleImageField_page_type E r.1 r.2 fld.1 fld.2 pageType f hf
  · intro f hf
    unfold analyzeForms at hf
    rw [mem_concatMap] at hf
    obtain ⟨p, _, hf⟩ := hf
    exact analyzeFormIndexed_page_type E p.1 p.2 pageType f hf
  · intro f hf
    unfold checkHttps at hf
    split at hf <;> simp at hf
    subst hf; rfl
  · intro f hf
    unfold checkRequiredPages at hf
    rw [List.mem_append] at hf
    rcases hf with hf | hf <;> split at hf <;> simp at hf <;> subst hf <;> rfl

/-- Witness for C9 (amended): the transport-check finding of an insecure URL
has no page type. -/
theorem finding_page_type_witness :
    Finding.page_type
      { type := "security_issues", category := "technical", severity := "high",
        pattern := "http://".data, matched_text := "http://a.com".data,
        context := "Non-secure URL: ".data ++ "http://a.com".data,
        location := "url" } = none :=
  (finding_page_type_spec falseE [] "t".data [] [] [] "http://a.com".data [] "other").2.2.2.2.1
    _ (by decide)

/-- C7: when no page URL and no page text matches any privacy indicator and
none matches any terms indicator, the site-wide check emits exactly one
`missing_privacy_policy`/hipaa/high finding and one
`missing_terms`/legal/medium finding, in this order, keyed to `site_wide`;
and when a privacy (resp. terms) indicator matches anywhere, the
corresponding finding is not emitted. -/
theorem required_pages_spec (E : RegexEngine) (pages : List (Str × Str)) :
    ((∀ pg ∈ pages, ∀ p ∈ privacyPatterns,
        E.search p pg.1 = false ∧ E.search p (lowerStr pg.2) = false) →
     (∀ pg ∈ pages, ∀ p ∈ termsPatterns,
        E.search p pg.1 = false ∧ E.search p (lowerStr pg.2) = false) →
     checkRequiredPages E pages = [missingPrivacyFinding, missingTermsFinding]) ∧
    ((∃ pg ∈ pages, ∃ p ∈ privacyPatterns,
        E.search p pg.1 = true ∨ E.search p (lowerStr pg.2) = true) →
     ∀ f ∈ checkRequiredPages E pages, f.type ≠ "missing_privacy_policy") ∧
    ((∃ pg ∈ pages, ∃ p ∈ termsPatterns,
        E.search p pg.1 = true ∨ E.search p (lowerStr pg.2) = true) →
     ∀ f ∈ checkRequiredPages E pages, f.type ≠ "missing_terms") := by
  refine ⟨?_, ?_, ?_⟩
  · intro h1 h2
    have hp : privacyFoundIn E pages = false := by
      simp only [privacyFoundIn, Bool.or_eq_false_iff, List.any_eq_false,
        Bool.not_eq_true]
      constructor
      · intro pg hpg p hp'
        exact (h1 pg hpg p hp').1
      · intro pg hpg p hp'
        exact (h1 pg hpg p hp').2
    have ht : termsFoundIn E pages = false := by
      simp only [termsFoundIn, Bool.or_eq_false_iff, List.any_eq_false,
        Bool.not_eq_true]
      constructor
      · intro pg hpg p hp'
        exact (h2 pg hpg p hp').1
      · intro pg hpg p hp'
        exact (h2 pg hpg p hp').2
    unfold checkRequiredPages
    rw [hp, ht]
    rfl
  · rintro ⟨pg, hpg, p, hp', hsearch⟩ f hf
    have hp : privacyFoundIn E pages = true := by
      simp only [privacyFoundIn, Bool.or_eq_true, List.any_eq_true]
      rcases hsearch with hs | hs
      · exact Or.inl ⟨pg, hpg, ⟨p, hp', hs⟩⟩
      · exact Or.inr ⟨pg, hpg, ⟨p, hp', hs⟩⟩
    unfold checkRequiredPages at hf
    rw [hp] at hf
    simp only [if_true, List.nil_append] at hf
    split at hf
    · simp at hf
    · simp at hf
      subst hf
      decide
  · rintro ⟨pg, hpg, p, hp', hsearch⟩ f hf
    have ht : termsFoundIn E pages = true := by
      simp only [termsFoundIn, Bool.or_eq_true, List.any_eq_true]
      rcases hsearch with hs | hs
      · exact Or.inl ⟨pg, hpg, ⟨p, hp', hs⟩⟩
      · exact Or.inr ⟨pg, hpg, ⟨p, hp', hs⟩⟩
    unfold checkRequiredPages at hf
    rw [ht] at hf
    rw [List.mem_append] at hf
    rcases hf with hf | hf
    · split at hf
      · simp at hf
      · simp at hf
        subst hf
        decide
    · simp at hf

/-- Witness for C7: a one-page corpus with no indicator match produces
exactly the two site-wide findings. -/
theorem required_pages_witness :
    checkRequiredPages falseE [("https://a.com/home".data, "welcome to our site".data)] =
      [missingPrivacyFinding, missingTermsFinding] :=
  (required_pages_spec falseE
    [("https://a.com/home".data, "welcome to our site".data)]).1 (by decide) (by decide)

/-- The visited set of the crawl loop stays without duplicates. -/
theorem crawlLoop_visited_nodup {α : Type} [DecidableEq α] (web : α → Option (List α))
    (maxPages : Nat) (q v l : List α) (hv : v.Nodup) :
    (crawlLoop web maxPages q v l).visited.Nodup := by
  induction q, v, l using crawlLoop.induct web maxPages with
  | case1 v l => simpa [crawlLoop] using hv
  | case2 u rest v l hlen hmem ih =>
    rw [crawlLoop]; simp only [if_pos hlen, if_pos hmem]
    exact ih hv
  | case3 u rest v l hlen hmem links hweb ih =>
    rw [crawlLoop]; simp only [if_pos hlen, if_neg hmem, hweb]
    exact ih (by simp [List.nodup_append, hv, hmem])
  | case4 u rest v l hlen hmem hweb ih =>
    rw [crawlLoop]; simp only [if_pos hlen, if_neg hmem, hweb]
    exact ih hv
  | case5 u rest v l hlen =>
    rw [crawlLoop]; simp only [if_neg hlen]
    exact hv

/-- The visited set of the crawl loop never exceeds the page cap. -/
theorem crawlLoop_visited_le {α : Type} [DecidableEq α] (web : α → Option (List α))
    (maxPages : Nat) (q v l : List α) (hv : v.length ≤ maxPages) :
    (crawlLoop web maxPages q v l).visited.length ≤ maxPages := by
  induction q, v, l using crawlLoop.induct web maxPages with
  | case1 v l => simpa [crawlLoop] using hv
  | case2 u rest v l hlen hmem ih =>
    rw [crawlLoop]; simp only [if_pos hlen, if_pos hmem]
    exact ih hv
  | case3 u rest v l hlen hmem links hweb ih =>
    rw [crawlLoop]; simp only [if_pos hlen, if_neg hmem, hweb]
    exact ih (by simpa using hlen)
  | case4 u rest v l hlen hmem hweb ih =>
    rw [crawlLoop]; simp only [if_pos hlen, if_neg hmem, hweb]
    exact ih hv
  | case5 u rest v l hlen =>
    rw [crawlLoop]; simp only [if_neg hlen]
    exact hv

/-- The visited set is exactly the successful entries of the fetch log. -/
theorem crawlLoop_visited_eq_log {α : Type} [DecidableEq α] (web : α → Option (List α))
    (maxPages : Nat) (q v l : List α)
    (hv : v = l.filter fun u => (web u).isSome) :
    (crawlLoop web maxPages q v l).visited =
      (crawlLoop web maxPages q v l).log.filter fun u => (web u).isSome := by
  induction q, v, l using crawlLoop.induct web maxPages with
  | case1 v l => simpa [crawlLoop] using hv
  | case2 u rest v l hlen hmem ih =>
    rw [crawlLoop]; simp only [if_pos hlen, if_pos hmem]
    exact ih hv
  | case3 u rest v l hlen hmem links hweb ih =>
    rw [crawlLoop]; simp only [if_pos hlen, if_neg hmem, hweb]
    exact ih (by rw [List.filter_append, ← hv]; simp [hweb])
  | case4 u rest v l hlen hmem hweb ih =>
    rw [crawlLoop]; simp only [if_pos hlen, if_neg hmem, hweb]
    exact ih (by rw [List.filter_append, ← hv]; simp [hweb])
  | case5 u rest v l hlen =>
    rw [crawlLoop]; simp only [if_neg hlen]
    exact hv

/-- At the end of the loop the queue is empty or the cap is reached. -/
theorem crawlLoop_end_state {α : Type} [DecidableEq α] (web : α → Option (List α))
    (maxPages : Nat) (q v l : List α) (hv : v.length ≤ maxPages) :
    (crawlLoop web maxPages q v l).queue = [] ∨
      (crawlLoop web maxPages q v l).visited.length = maxPages := by
  induction q, v, l using crawlLoop.induct web maxPages with
  | case1 v l => left; rw [crawlLoop]
  | case2 u rest v l hlen hmem ih =>
    rw [crawlLoop]; simp only [if_pos hlen, if_pos hmem]
    exact ih hv
  | case3 u rest v l hlen hmem links hweb ih =>
    rw [crawlLoop]; simp only [if_pos hlen, if_neg hmem, hweb]
    exact ih (by simpa using hlen)
  | case4 u rest v l hlen hmem hweb ih =>
    rw [crawlLoop]; simp only [if_pos hlen, if_neg hmem, hweb]
    exact ih hv
  | case5 u rest v l hlen =>
    rw [crawlLoop]; simp only [if_neg hlen]
    right
    exact Nat.le_antisymm hv (Nat.le_of_not_lt hlen)

/-- The enqueueing fold only appends: the old queue survives. -/
theorem subset_enqueueLinks {α : Type} [DecidableEq α] (visited links : List α) :
    ∀ queue : List α, queue ⊆ enqueueLinks visited links queue := by
  induction links with
  | nil => intro queue; simp [enqueueLinks]
  | cons x xs ih =>
    intro queue
    simp only [enqueueLinks, List.foldl_cons]
    intro y hy
    split
    · exact ih (queue ++ [x]) (by simp [hy])
    · exact ih queue hy

/-- Every extracted link ends up visited or queued after enqueueing. -/
theorem mem_enqueueLinks {α : Type} [DecidableEq α] (visited links : List α) :
    ∀ queue : List α, ∀ y ∈ links, y ∈ visited ∨ y ∈ enqueueLinks visited links queue := by
  induction links with
  | nil => simp
  | cons x xs ih =>
    intro queue y hy
    rcases List.mem_cons.mp hy with rfl | hy
    · by_cases hx : y ∉ visited ∧ y ∉ queue
      · right
        simp only [enqueueLinks, List.foldl_cons, if_pos hx]
        exact subset_enqueueLinks visited xs (queue ++ [y]) (by simp)
      · rcases Decidable.not_and_iff_or_not.mp hx with hx | hx
        · left; exact Decidable.not_not.mp hx
        · right
          have hyq : y ∈ queue := Decidable.not_not.mp hx
          simp only [enqueueLinks, List.foldl_cons]
          split
          next h => exact subset_enqueueLinks visited xs (queue ++ [y]) (by simp [hyq])
          next h => exact subset_enqueueLinks visited xs queue hyq
    · rcases ih (if x ∉ visited ∧ x ∉ queue then queue ++ [x] else queue) y hy with h | h
      · exact Or.inl h
      · right
        simpa [enqueueLinks, List.foldl_cons] using h

/-- Cover invariant of the crawl loop (all fetches succeeding): every link of
a visited page is itself visited or still queued. -/
theorem crawlLoop_cover {α : Type} [DecidableEq α] (web : α → Option (List α))
    (maxPages : Nat) (q v l : List α) (hsucc : ∀ u, (web u).isSome)
    (hcov : ∀ x ∈ v, ∀ ls, web x = some ls → ∀ y ∈ ls, y ∈ v ∨ y ∈ q) :
    ∀ x ∈ (crawlLoop web maxPages q v l).visited, ∀ ls, web x = some ls →
      ∀ y ∈ ls, y ∈ (crawlLoop web maxPages q v l).visited ∨
        y ∈ (crawlLoop web maxPages q v l).queue := by
  induction q, v, l using crawlLoop.induct web maxPages with
  | case1 v l =>
    rw [crawlLoop]
    intro x hx ls hls y hy
    rcases hcov x hx ls hls y hy with h | h
    · exact Or.inl h
    · exact absurd h (by simp)
  | case2 u rest v l hlen hmem ih =>
    rw [crawlLoop]; simp only [if_pos hlen, if_pos hmem]
    apply ih
    intro x hx ls hls y hy
    rcases hcov x hx ls hls y hy with h | h
    · exact Or.inl h
    · rcases List.mem_cons.mp h with rfl | h
      · exact Or.inl hmem
      · exact Or.inr h
  | case3 u rest v l hlen hmem links hweb ih =>
    rw [crawlLoop]; simp only [if_pos hlen, if_neg hmem, hweb]
    apply ih
    intro x hx ls hls y hy
    rcases List.mem_append.mp hx with hxv | hxu
    · rcases hcov x hxv ls hls y hy with h | h
      · exact Or.inl (by simp [h])
      · rcases List.mem_cons.mp h with rfl | h
        · exact Or.inl (by simp)
        · exact Or.inr (subset_enqueueLinks v links rest h)
    · have hxu' : x = u := by simpa using hxu
      subst hxu'
      rw [hweb] at hls
      obtain rfl : links = ls := by injection hls
      rcases mem_enqueueLinks v links rest y hy with h | h
      · exact Or.inl (by simp [h])
      · exact Or.inr h
  | case4 u rest v l hlen hmem hweb ih =>
    exact absurd (hsucc u) (by simp [hweb])
  | case5 u rest v l hlen =>
    rw [crawlLoop]; simp only [if_neg hlen]
    exact hcov

/-- The seed stays visited or queued throughout (all fetches succeeding). -/
theorem crawlLoop_seed_cover {α : Type} [DecidableEq α] (web : α → Option (List α))
    (maxPages : Nat) (s : α) (q v l : List α) (hsucc : ∀ u, (web u).isSome)
    (hseed : s ∈ v ∨ s ∈ q) :
    s ∈ (crawlLoop web maxPages q v l).visited ∨
      s ∈ (crawlLoop web maxPages q v l).queue := by
  induction q, v, l using crawlLoop.induct web maxPages with
  | case1 v l =>
    rw [crawlLoop]
    rcases hseed with h | h
    · exact Or.inl h
    · exact absurd h (by simp)
  | case2 u rest v l hlen hmem ih =>
    rw [crawlLoop]; simp only [if_pos hlen, if_pos hmem]
    apply ih
    rcases hseed with h | h
    · exact Or.inl h
    · rcases List.mem_cons.mp h with rfl | h
      · exact Or.inl hmem
      · exact Or.inr h
  | case3 u rest v l hlen hmem links hweb ih =>
    rw [crawlLoop]; simp only [if_pos hlen, if_neg hmem, hweb]
    apply ih
    rcases hseed with h | h
    · exact Or.inl (by simp [h])
    · rcases List.mem_cons.mp h with rfl | h
      · exact Or.inl (by simp)
      · exact Or.inr (subset_enqueueLinks v links rest h)
  | case4 u rest v l hlen hmem hweb ih =>
    exact absurd (hsucc u) (by simp [hweb])
  | case5 u rest v l hlen =>
    rw [crawlLoop]; simp only [if_neg hlen]
    exact hseed

/-- When the crawl ends with an empty queue and every fetch succeeds, every
reachable page has been visited. -/
theorem crawl_complete {α : Type} [DecidableEq α] (web : α → Option (List α))
    (seed : α) (maxPages : Nat) (hsucc : ∀ u, (web u).isSome)
    (hq : (crawl web seed maxPages).queue = []) :
    ∀ x, Reachable web seed x → x ∈ (crawl web seed maxPages).visited := by
  have hcov := crawlLoop_cover web maxPages [seed] [] [] hsucc (by simp)
  have hseed := crawlLoop_seed_cover web maxPages seed [seed] [] [] hsucc
    (Or.inr (by simp))
  have hq' : (crawlLoop web maxPages [seed] [] []).queue = [] := hq
  intro x hx
  induction hx with
  | seed =>
    refine hseed.resolve_right ?_
    rw [hq']
    simp
  | step hr hw hl ih =>
    refine (hcov _ ih _ hw _ hl).resolve_right ?_
    rw [hq']
    simp

/-- C5: the crawl loop terminates with an empty queue or with the visited set
at the page cap; the visited set has no duplicates, never exceeds the cap,
and is exactly the set of successfully fetched URLs of the fetch log; and on
a fully fetchable site with at least `maxPages` reachable pages it holds
exactly `maxPages` distinct URLs, each fetched exactly once. -/
theorem crawl_invariants {α : Type} [DecidableEq α] (web : α → Option (List α))
    (seed : α) (maxPages : Nat) :
    (crawl web seed maxPages).visited.Nodup ∧
    (crawl web seed maxPages).visited.length ≤ maxPages ∧
    ((crawl web seed maxPages).visited =
      (crawl web seed maxPages).log.filter fun u => (web u).isSome) ∧
    ((crawl web seed maxPages).queue = [] ∨
      (crawl web seed maxPages).visited.length = maxPages) ∧
    (∀ S : List α, (∀ u, (web u).isSome) → S.Nodup →
      (∀ u ∈ S, Reachable web seed u) → maxPages ≤ S.length →
      (crawl web seed maxPages).visited.length = maxPages ∧
      ∀ u ∈ (crawl web seed maxPages).visited,
        (crawl web seed maxPages).log.count u = 1) := by
  have hnodup : (crawl web seed maxPages).visited.Nodup :=
    crawlLoop_visited_nodup web maxPages [seed] [] [] (by simp)
  have hle : (crawl web seed maxPages).visited.length ≤ maxPages :=
    crawlLoop_visited_le web maxPages [seed] [] [] (by simp)
  have heq : (crawl web seed maxPages).visited =
      (crawl web seed maxPages).log.filter fun u => (web u).isSome :=
    crawlLoop_visited_eq_log web maxPages [seed] [] [] (by simp)
  have hend : (crawl web seed maxPages).queue = [] ∨
      (crawl web seed maxPages).visited.length = maxPages :=
    crawlLoop_end_state web maxPages [seed] [] [] (by simp)
  refine ⟨hnodup, hle, heq, hend, ?_⟩
  intro S hsucc hnd hreach hlen
  have hmain : (crawl web seed maxPages).visited.length = maxPages := by
    rcases hend with hq | hcap
    · have hsub : S ⊆ (crawl web seed maxPages).visited := fun x hx =>
        crawl_complete web seed maxPages hsucc hq x (hreach x hx)
      have hSlen : S.length ≤ (crawl web seed maxPages).visited.length :=
        (hnd.subperm hsub).length_le
      exact Nat.le_antisymm hle (le_trans hlen hSlen)
    · exact hcap
  have hlog : (crawl web seed maxPages).log = (crawl web seed maxPages).visited := by
    rw [heq]
    exact (List.filter_eq_self.mpr fun a _ => by simp [hsucc a]).symm
  refine ⟨hmain, ?_⟩
  intro u hu
  rw [hlog]
  exact List.count_eq_one_of_mem hnodup hu

/-- Witness for C5: on a fully fetchable four-page site with cap 2, the crawl
visits exactly 2 distinct pages. -/
theorem crawl_invariants_witness :
    (crawl totalWeb 0 2).visited.length = 2 :=
  ((crawl_invariants totalWeb 0 2).2.2.2.2 [0, 1] (fun _ => rfl) (by decide)
    (fun u hu => by
      fin_cases hu
      · exact Reachable.seed
      · exact Reachable.step Reachable.seed rfl (by decide))
    (by decide)).1

/-- C10: a URL whose fetch fails is never added to the visited set (so it
does not count toward the `max_pages` cap); on the concrete `failWeb`, page 1
fails, is rediscovered from page 2, and is fetched twice, while the visited
set holds only the successfully fetched pages 0 and 2. -/
theorem failed_fetch_refetched {α : Type} [DecidableEq α] (web : α → Option (List α))
    (seed : α) (maxPages : Nat) :
    (∀ u, web u = none → u ∉ (crawl web seed maxPages).visited) ∧
    (crawl failWeb 0 10).visited = [0, 2] ∧
    (crawl failWeb 0 10).log = [0, 1, 2, 1] ∧
    (crawl failWeb 0 10).log.count 1 = 2 := by
  have hrun : crawl failWeb 0 10 = ⟨[0, 2], [], [0, 1, 2, 1]⟩ := by
    simp [crawl, crawlLoop, enqueueLinks, failWeb]
  refine ⟨?_, by rw [hrun], by rw [hrun], by rw [hrun]; decide⟩
  intro u hnone hu
  have heq : (crawl web seed maxPages).visited =
      (crawl web seed maxPages).log.filter fun x => (web x).isSome :=
    crawlLoop_visited_eq_log web maxPages [seed] [] [] (by simp)
  rw [heq, List.mem_filter] at hu
  exact absurd hu.2 (by simp [hnone])

/-- Witness for C10: the failing page 1 of `failWeb` is not among the visited
URLs of its crawl. -/
theorem failed_fetch_witness : 1 ∉ (crawl failWeb 0 10).visited :=
  (failed_fetch_refetched failWeb 0 10).1 1 rfl

